import Mathlib

set_option autoImplicit false

/-!
Verification development for the PixelParity GPU rendering core
(`src/lib/ImageDisplay/DrawContext.ts` and its shaders).

The WebGL2 engine is modelled as an explicit state (`GLState`) recording the
texture objects created and not yet deleted, the console error log, and the
ordered trace of GL calls issued — exactly the observables the design document
asks a test double to record.  The model assumes a non-erroring GL engine:
`gl.getError()` always returns `NO_ERROR`, so the `checkError` polls in the
source never fire.  Pixel buffers are modelled as lists of rationals,
covering every sample type of the source's `PixelData` union: elements of
the unsigned-integer array types (`Uint8Array`/`Uint8ClampedArray`/
`Uint16Array`/`Uint32Array`) are non-negative integers, and elements of a
`Float32Array` are finite binary32 values, which are dyadic rationals.  The
element-wise conversion performed by assigning into a `Float32Array` is
modelled by `roundF32` (see its doc comment; IEEE-754 binary32
round-to-nearest-even on the sample values `PixelData` can hold).
`loadImage` and `draw` contain no `throw` in the source; they are embedded as
total functions, so "does not raise" is captured by totality.
-/

namespace PixelParity

/-- An image handed to the Draw Context by the loader collaborator:
a flat pixel buffer with its dimensions and channel count
(from `src/lib/ImageDisplay/image.ts`).  A sample is a rational: a
non-negative integer below `2^32` when the buffer is one of the
unsigned-integer `PixelData` array types, or a finite binary32 value (a
dyadic rational) when it is a `Float32Array`. -/
structure ImageBuffer where
  pixels : List ℚ
  width : Nat
  height : Nat
  channels : Nat
  deriving DecidableEq

/-- WebGL enum value of `gl.TRIANGLE_STRIP`. -/
def TRIANGLE_STRIP : Nat := 0x0005

/-- WebGL enum value of `gl.TEXTURE_WRAP_S`. -/
def TEXTURE_WRAP_S : Nat := 0x2802

/-- WebGL enum value of `gl.TEXTURE_WRAP_T`. -/
def TEXTURE_WRAP_T : Nat := 0x2803

/-- WebGL enum value of `gl.TEXTURE_MIN_FILTER`. -/
def TEXTURE_MIN_FILTER : Nat := 0x2801

/-- WebGL enum value of `gl.TEXTURE_MAG_FILTER`. -/
def TEXTURE_MAG_FILTER : Nat := 0x2800

/-- WebGL enum value of `gl.CLAMP_TO_EDGE`. -/
def CLAMP_TO_EDGE : Nat := 0x812F

/-- WebGL enum value of `gl.NEAREST`. -/
def NEAREST : Nat := 0x2600

/-- WebGL enum value of `gl.FLOAT`. -/
def FLOAT : Nat := 0x1406

/-- WebGL enum value of `gl.TEXTURE0`. -/
def TEXTURE0 : Nat := 0x84C0

/-- Internal (GPU-side) texture formats used by `initTextureForImage`. -/
inductive TexFormat where
  | R32F
  | RGB32F
  | RGBA32F
  deriving DecidableEq

/-- Client pixel formats used by `initTextureForImage`. -/
inductive PixFormat where
  | RED
  | RGB
  | RGBA
  deriving DecidableEq

/-- Names of the shader programs compiled by `initShaderPrograms`
(the keys of `shaderProgramSources`). -/
inductive ProgName where
  | default
  deriving DecidableEq

/-- Uniform variable names looked up with `gl.getUniformLocation`. -/
inductive UniformName where
  | uSampler
  | uTexScale
  | uTexCenter
  deriving DecidableEq

/-- Vertex attribute names looked up with `gl.getAttribLocation`. -/
inductive AttribName where
  | aVertexPosition
  | aTextureCoordinate
  deriving DecidableEq

/-- The `console.error` messages emitted by `initTextureForImage`:
the invalid-pixel-count report (actual buffer length against the
width/height/channels that determine the expected length) and the
unsupported-channel-count report. -/
inductive LogEntry where
  | invalidPixelCount (actual width height channels : Nat)
  | unsupportedChannels (channels : Nat)
  deriving DecidableEq

/-- One observable WebGL2 call, as recorded by the engine test double. -/
inductive GLCall where
  | createTexture (id : Nat)
  | bindTexture (id : Option Nat)
  | deleteTexture (id : Nat)
  | texImage2D (internalFormat : TexFormat) (width height : Nat)
      (format : PixFormat) (typ : Nat) (data : List ℚ)
  | texParameteri (pname pvalue : Nat)
  | viewport (x y width height : Nat)
  | clearColor (r g b a : ℚ)
  | clear
  | useProgram (name : ProgName)
  | bindBuffer
  | vertexAttribPointer (attrib : AttribName) (size stride offset : Nat)
  | enableVertexAttribArray (attrib : AttribName)
  | activeTexture (unit : Nat)
  | uniform1i (name : UniformName) (v : Nat)
  | uniform2f (name : UniformName) (x y : ℚ)
  | drawArrays (mode first count : Nat)
  deriving DecidableEq

/-- Observable state of the `WebGL2RenderingContext` test double:
the id supply for `createTexture`, the ids of textures created and not yet
deleted, the drawing-buffer size (read fresh on every draw), the error log
and the ordered call trace. -/
structure GLState where
  nextTextureId : Nat
  liveTextures : List Nat
  drawingBufferWidth : Nat
  drawingBufferHeight : Nat
  errorLog : List LogEntry
  calls : List GLCall
  deriving DecidableEq

/-- A freshly created rendering context with drawing buffer size `w × h`:
no textures allocated, nothing logged, no calls issued yet. -/
def GLState.fresh (w h : Nat) : GLState :=
  { nextTextureId := 0
    liveTextures := []
    drawingBufferWidth := w
    drawingBufferHeight := h
    errorLog := []
    calls := [] }

/-- Floor of the base-2 logarithm by structural recursion on a fuel
argument: `log2floor fuel n = ⌊log₂ n⌋` whenever `1 ≤ n < 2 ^ (fuel + 1)`,
in particular for `log2floor n n`. -/
def log2floor : Nat → Nat → Nat
  | 0, _ => 0
  | fuel + 1, n => if n < 2 then 0 else log2floor fuel (n / 2) + 1

/-- IEEE-754 binary32 round-to-nearest-even on a non-negative integer:
the value stored when a JavaScript number holding the integer `n` is
assigned into a `Float32Array` element.  Integers below `2^24` fit the
24-bit significand exactly; larger ones are rounded onto the grid of
spacing `2^(⌊log₂ n⌋ - 23)`, ties going to the even quotient. -/
def natRoundF32 (n : Nat) : Nat :=
  if n < 2 ^ 24 then n
  else
    let e := log2floor n n - 23
    let q := n / 2 ^ e
    let r := n % 2 ^ e
    let half := 2 ^ (e - 1)
    let q' := if half < r ∨ (r = half ∧ q % 2 = 1) then q + 1 else q
    q' * 2 ^ e

/-- The conversion a `Float32Array` element assignment applies to one
sample value a `PixelData` buffer can hold.  Such a sample is either a
non-negative integer (an element of one of the four unsigned-integer array
types, or an integer-valued `Float32Array` element), which is rounded to
the nearest binary32 value with ties to even (`natRoundF32`), or a
non-integer or negative `Float32Array` element; the latter is already a
finite binary32 value, on which the assignment is exact, so the second
branch is the identity. -/
def roundF32 (x : ℚ) : ℚ :=
  if 0 ≤ x.num ∧ x.den = 1 then (natRoundF32 x.num.toNat : ℚ) else x

/-- The conversion loop of `initTextureForImage`: element-wise copy of the
input pixel buffer into a freshly allocated `Float32Array`
(`textureBuffer[i] = image.pixels[i]`).  Each element lands as its binary32
rounding; no scaling or normalization is applied. -/
def floatConvert (pixels : List ℚ) : List ℚ :=
  pixels.map roundF32

/-- A finite IEEE-754 binary32 value: a rational of the form `m * 2 ^ e`
with a significand of at most 24 bits and an exponent in the finite range
(down to the smallest subnormal quantum `2 ^ (-149)`, up to the largest
finite value `(2 ^ 24 - 1) * 2 ^ 104`).  Every value a `Float32Array`
element can hold (other than infinities and NaN) is of this form, as is
every unsigned 8- or 16-bit sample and every integer sample up to
`2 ^ 24`. -/
def repF32 (x : ℚ) : Prop :=
  ∃ (m e : ℤ), m.natAbs < 2 ^ 24 ∧ -149 ≤ e ∧ e ≤ 104 ∧
    x = (m : ℚ) * (2 : ℚ) ^ e

/-- The `switch (image.channels)` of `initTextureForImage`: channel count 1
maps to `(R32F, RED)`, 3 to `(RGB32F, RGB)`, 4 to `(RGBA32F, RGBA)`, and the
`default` arm produces no format (the function then logs and returns null). -/
def formatForChannels (channels : Nat) : Option (TexFormat × PixFormat) :=
  if channels = 1 then some (TexFormat.R32F, PixFormat.RED)
  else if channels = 3 then some (TexFormat.RGB32F, PixFormat.RGB)
  else if channels = 4 then some (TexFormat.RGBA32F, PixFormat.RGBA)
  else none

/-- `initTextureForImage` from `DrawContext.ts`: creates and binds a texture
object, validates `pixels.length == width*height*channels` (logging and
returning null on mismatch), dispatches on the channel count (logging and
returning null on an unsupported count), converts the pixel buffer to float,
uploads it with `texImage2D`, and sets clamp-to-edge / nearest-neighbor
parameters.  Returns the updated engine state and the texture id, or `none`
on a validation failure.  Note that the texture object is created before
validation and is not deleted on the failure paths. -/
def initTextureForImage (gl : GLState) (image : ImageBuffer) :
    GLState × Option Nat :=
  let texture := gl.nextTextureId
  let gl1 : GLState := { gl with
    nextTextureId := gl.nextTextureId + 1
    liveTextures := gl.liveTextures ++ [texture]
    calls := gl.calls ++ [GLCall.createTexture texture,
      GLCall.bindTexture (some texture)] }
  if image.pixels.length ≠ image.width * image.height * image.channels then
    ({ gl1 with errorLog := gl1.errorLog ++
        [LogEntry.invalidPixelCount image.pixels.length image.width
          image.height image.channels] }, none)
  else
    match formatForChannels image.channels with
    | none =>
        ({ gl1 with errorLog := gl1.errorLog ++
            [LogEntry.unsupportedChannels image.channels] }, none)
    | some (internalFormat, format) =>
        let textureBuffer := floatConvert image.pixels
        let gl2 : GLState := { gl1 with calls := gl1.calls ++
          [GLCall.texImage2D internalFormat image.width image.height format
              FLOAT textureBuffer,
            GLCall.texParameteri TEXTURE_WRAP_S CLAMP_TO_EDGE,
            GLCall.texParameteri TEXTURE_WRAP_T CLAMP_TO_EDGE,
            GLCall.texParameteri TEXTURE_MIN_FILTER NEAREST,
            GLCall.texParameteri TEXTURE_MAG_FILTER NEAREST] }
        (gl2, some texture)

/-- The mutable fields of the `DrawContext` class: the image buffer and the
texture handle of the currently loaded image (the quad buffer and the
compiled program set are created in the constructor and never reassigned;
the program set is modelled by `shaderProgramSources` below). -/
structure DrawContext where
  imageBuffer : Option ImageBuffer
  imageTexture : Option Nat
  deriving DecidableEq

/-- The `DrawContext` constructor's field initialization: no image and no
texture are present before the first `loadImage`. -/
def DrawContext.construct : DrawContext :=
  { imageBuffer := none, imageTexture := none }

/-- `DrawContext.loadImage`: deletes the previously held texture (if any),
stores the incoming image buffer, and installs the result of
`initTextureForImage` (which is `none` when validation fails). -/
def loadImage (gl : GLState) (ctx : DrawContext) (image : ImageBuffer) :
    GLState × DrawContext :=
  let gl1 : GLState :=
    match ctx.imageTexture with
    | some t => { gl with liveTextures := gl.liveTextures.erase t
                          calls := gl.calls ++ [GLCall.deleteTexture t] }
    | none => gl
  let r := initTextureForImage gl1 image
  (r.1, { imageBuffer := some image, imageTexture := r.2 })

/-- `DrawContext.draw`: sets the viewport from the live drawing-buffer size,
clears to opaque black, binds the default program, the quad buffer and the
position attribute; returns early if no texture or image is loaded.
Otherwise it binds the texture-coordinate attribute and the texture on unit
0, computes the aspect-fit `uTexScale` from `scaleX = drawingBufferWidth /
image.width` and `scaleY = drawingBufferHeight / image.height`, sets
`uTexCenter = (0.5, 0.5)` and draws the 4-vertex triangle strip.  The method
assigns none of the context's fields, so the context is returned unchanged. -/
def draw (gl : GLState) (ctx : DrawContext) : GLState × DrawContext :=
  let gl2 : GLState := { gl with calls := gl.calls ++
    [GLCall.viewport 0 0 gl.drawingBufferWidth gl.drawingBufferHeight,
      GLCall.clearColor 0 0 0 1,
      GLCall.clear,
      GLCall.useProgram ProgName.default,
      GLCall.bindBuffer,
      GLCall.vertexAttribPointer AttribName.aVertexPosition 2 16 0] }
  match ctx.imageTexture, ctx.imageBuffer with
  | some tex, some image =>
      let gl3 : GLState := { gl2 with calls := gl2.calls ++
        [GLCall.enableVertexAttribArray AttribName.aVertexPosition,
          GLCall.vertexAttribPointer AttribName.aTextureCoordinate 2 16 8,
          GLCall.enableVertexAttribArray AttribName.aTextureCoordinate,
          GLCall.activeTexture TEXTURE0,
          GLCall.bindTexture (some tex),
          GLCall.uniform1i UniformName.uSampler 0] }
      let scaleX : ℚ := (gl.drawingBufferWidth : ℚ) / (image.width : ℚ)
      let scaleY : ℚ := (gl.drawingBufferHeight : ℚ) / (image.height : ℚ)
      let gl4 : GLState :=
        if scaleX > scaleY then
          { gl3 with calls := gl3.calls ++
            [GLCall.uniform2f UniformName.uTexScale (scaleX / scaleY) 1] }
        else
          { gl3 with calls := gl3.calls ++
            [GLCall.uniform2f UniformName.uTexScale 1 (scaleY / scaleX)] }
      let gl5 : GLState := { gl4 with calls := gl4.calls ++
        [GLCall.uniform2f UniformName.uTexCenter (1/2) (1/2),
          GLCall.drawArrays TRIANGLE_STRIP 0 4] }
      (gl5, ctx)
  | _, _ => (gl2, ctx)

/-- A GLSL `vec2` over exact rationals. -/
structure Vec2 where
  x : ℚ
  y : ℚ
  deriving DecidableEq

/-- A GLSL `vec3` over exact rationals. -/
structure Vec3 where
  x : ℚ
  y : ℚ
  z : ℚ
  deriving DecidableEq

/-- A GLSL `vec4` over exact rationals. -/
structure Vec4 where
  x : ℚ
  y : ℚ
  z : ℚ
  w : ℚ
  deriving DecidableEq

instance : Add Vec3 :=
  ⟨fun a b => ⟨a.x + b.x, a.y + b.y, a.z + b.z⟩⟩

/-- Component-wise division of a `vec3` by a scalar (GLSL `v / c`). -/
def Vec3.divC (v : Vec3) (c : ℚ) : Vec3 :=
  ⟨v.x / c, v.y / c, v.z / c⟩

/-- The vertex shader sources present in the repository: `default.vert`
(pass-through) and the view-transform variant. -/
inductive VertShader where
  | defaultVert
  | viewTransformVert
  deriving DecidableEq

/-- The fragment shader sources present in the repository: `default.frag`
(aspect-fit remap, bounds check, /255) and the 3×3 box-blur variant. -/
inductive FragShader where
  | defaultFrag
  | blurFrag
  deriving DecidableEq

/-- A vertex/fragment source pair, one entry of `shaderProgramSources`. -/
structure ProgramSource where
  vertex : VertShader
  fragment : FragShader
  deriving DecidableEq

/-- `shaderProgramSources` from `shaders/shaders.ts`: the mapping from
program name to shader source pair that `initShaderPrograms` compiles.  The
source file imports only `default.vert` and `default.frag` and exports the
single entry `default`. -/
def shaderProgramSources : List (ProgName × ProgramSource) :=
  [(ProgName.default,
    { vertex := VertShader.defaultVert, fragment := FragShader.defaultFrag })]

/-- The environment a fragment shader invocation reads: the bound texture as
a sampling function (`texture(uSampler, ·).xyz`), its size
(`textureSize(uSampler, 0)`), and the two uniforms of `default.frag`. -/
structure FragEnv where
  tex : ℚ → ℚ → Vec3
  texWidth : Nat
  texHeight : Nat
  uTexCenter : Vec2
  uTexScale : Vec2

/-- The loop bounds of the blur shader's neighborhood loops
(`for x in -1..1`, cast to float). -/
def blurOffsets : List ℚ := [-1, 0, 1]

/-- The `main` functions of the two fragment shaders, embedded over exact
rationals.  `defaultFrag` is `default.frag`: remap the interpolated texture
coordinate through `((coord - center) * scale) + center`, output transparent
black when either remapped axis leaves `[0,1]`, otherwise the sampled texel
divided by 255 with alpha 1.  `blurFrag` is the box-blur variant: sum the
3×3 texel neighborhood at spacing `1 / textureSize`, divide by 9, then by
255, alpha 1. -/
def fragMain : FragShader → FragEnv → ℚ → ℚ → Vec4
  | FragShader.defaultFrag, env, s, t =>
      let texCoordS := ((s - env.uTexCenter.x) * env.uTexScale.x) + env.uTexCenter.x
      let texCoordT := ((t - env.uTexCenter.y) * env.uTexScale.y) + env.uTexCenter.y
      if texCoordS < 0 ∨ texCoordS > 1 ∨ texCoordT < 0 ∨ texCoordT > 1 then
        ⟨0, 0, 0, 0⟩
      else
        let color := (env.tex texCoordS texCoordT).divC 255
        ⟨color.x, color.y, color.z, 1⟩
  | FragShader.blurFrag, env, s, t =>
      let pixelSizeX : ℚ := 1 / (env.texWidth : ℚ)
      let pixelSizeY : ℚ := 1 / (env.texHeight : ℚ)
      let color : Vec3 := List.foldl
        (fun acc x => List.foldl
          (fun acc2 y => acc2 + env.tex (s + x * pixelSizeX) (t + y * pixelSizeY))
          acc blurOffsets)
        ⟨0, 0, 0⟩ blurOffsets
      let color := (color.divC 9).divC 255
      ⟨color.x, color.y, color.z, 1⟩

/-- Stated from the specification's words, for comparison with the embedded
shaders: the output pixel is the average of the 3×3 texel neighborhood (the
9 texels one texel-spacing apart), divided by 255, with alpha 1. -/
def boxBlurSpec (env : FragEnv) (s t : ℚ) : Vec4 :=
  let px : ℚ := 1 / (env.texWidth : ℚ)
  let py : ℚ := 1 / (env.texHeight : ℚ)
  let sum : Vec3 :=
    env.tex (s - px) (t - py) + env.tex (s - px) t + env.tex (s - px) (t + py) +
    env.tex s (t - py) + env.tex s t + env.tex s (t + py) +
    env.tex (s + px) (t - py) + env.tex (s + px) t + env.tex (s + px) (t + py)
  let c := (sum.divC 9).divC 255
  ⟨c.x, c.y, c.z, 1⟩

/-- A fragment shader semantics is a 3×3 box blur applied before the /255
normalization when it agrees with `boxBlurSpec` everywhere. -/
def isBoxBlurFrag (f : FragEnv → ℚ → ℚ → Vec4) : Prop :=
  ∀ env s t, f env s t = boxBlurSpec env s t

/-- Whether a recorded GL call is a draw-primitive call (`drawArrays`). -/
def isDrawPrimitive : GLCall → Bool
  | GLCall.drawArrays _ _ _ => true
  | _ => false

/-- The internal formats of the texture upload (`texImage2D`) calls in a
trace, in order. -/
def uploadsOf (calls : List GLCall) : List TexFormat :=
  calls.filterMap fun c =>
    match c with
    | GLCall.texImage2D f _ _ _ _ _ => some f
    | _ => none

/-- The data buffers of the texture upload (`texImage2D`) calls in a trace,
in order. -/
def uploadDataOf (calls : List GLCall) : List (List ℚ) :=
  calls.filterMap fun c =>
    match c with
    | GLCall.texImage2D _ _ _ _ _ d => some d
    | _ => none

/-- An image buffer that passes both validation steps of
`initTextureForImage`: consistent length and a supported channel count. -/
def validImage (image : ImageBuffer) : Prop :=
  image.pixels.length = image.width * image.height * image.channels ∧
    (image.channels = 1 ∨ image.channels = 3 ∨ image.channels = 4)

instance (image : ImageBuffer) : Decidable (validImage image) := by
  unfold validImage; infer_instance

/-- A sequence of `loadImage` calls on one context, in order. -/
def loadSeq : GLState → DrawContext → List ImageBuffer → GLState × DrawContext
  | gl, ctx, [] => (gl, ctx)
  | gl, ctx, image :: rest =>
      let r := loadImage gl ctx image
      loadSeq r.1 r.2 rest

/-- Test fixture: the specification's scenario image, a 4×2 RGBA buffer of
all 255s. -/
def img442 : ImageBuffer :=
  { pixels := List.replicate 32 255, width := 4, height := 2, channels := 4 }

/-- Test fixture: a context that has loaded `img442` as texture 0. -/
def ctx442 : DrawContext :=
  { imageBuffer := some img442, imageTexture := some 0 }

/-- Test fixture: a valid 1×1 single-channel image. -/
def img111 : ImageBuffer :=
  { pixels := [7], width := 1, height := 1, channels := 1 }

/-- Test fixture: an invalid image whose buffer length 0 disagrees with
`1 * 1 * 4`. -/
def badImg114 : ImageBuffer :=
  { pixels := [], width := 1, height := 1, channels := 4 }

/-- Test fixture: a fragment environment sampling the constant texel
`(510, 255, 0)` on a 1×1 texture, with the identity aspect-fit uniforms. -/
def envW : FragEnv :=
  { tex := fun _ _ => ⟨510, 255, 0⟩
    texWidth := 1
    texHeight := 1
    uTexCenter := ⟨1/2, 1/2⟩
    uTexScale := ⟨1, 1⟩ }

/-- Test fixture: a fragment environment sampling the constant texel
`(0, 0, 0)` on a 1×1 texture, with the identity aspect-fit uniforms. -/
def envC : FragEnv :=
  { tex := fun _ _ => ⟨0, 0, 0⟩
    texWidth := 1
    texHeight := 1
    uTexCenter := ⟨1/2, 1/2⟩
    uTexScale := ⟨1, 1⟩ }

@[simp]
theorem Vec3.add_def (a b : Vec3) :
    a + b = ⟨a.x + b.x, a.y + b.y, a.z + b.z⟩ := rfl

/-- C1: for every `draw()` call with a loaded texture, with viewport
dimensions `(Vw, Vh)` read at draw time and image dimensions `(Iw, Ih)`,
the uniforms issued satisfy the aspect-fit law: if `Vw/Iw > Vh/Ih` then
`uTexScale = (Vw/Iw / (Vh/Ih), 1)`, else `uTexScale = (1, Vh/Ih / (Vw/Iw))`;
and `uTexCenter = (0.5, 0.5)` in every case. -/
theorem draw_aspect_fit_uniforms (gl : GLState) (ctx : DrawContext)
    (tex : Nat) (image : ImageBuffer)
    (htex : ctx.imageTexture = some tex)
    (hbuf : ctx.imageBuffer = some image) :
    (((gl.drawingBufferWidth : ℚ) / (image.width : ℚ) >
        (gl.drawingBufferHeight : ℚ) / (image.height : ℚ)) →
      GLCall.uniform2f UniformName.uTexScale
          (((gl.drawingBufferWidth : ℚ) / (image.width : ℚ)) /
            ((gl.drawingBufferHeight : ℚ) / (image.height : ℚ))) 1
        ∈ (draw gl ctx).1.calls) ∧
    ((¬ ((gl.drawingBufferWidth : ℚ) / (image.width : ℚ) >
        (gl.drawingBufferHeight : ℚ) / (image.height : ℚ))) →
      GLCall.uniform2f UniformName.uTexScale 1
          (((gl.drawingBufferHeight : ℚ) / (image.height : ℚ)) /
            ((gl.drawingBufferWidth : ℚ) / (image.width : ℚ)))
        ∈ (draw gl ctx).1.calls) ∧
    GLCall.uniform2f UniformName.uTexCenter (1/2) (1/2)
      ∈ (draw gl ctx).1.calls := by
  refine ⟨fun h => ?_, fun h => ?_, ?_⟩
  · simp [draw, htex, hbuf, if_pos h]
  · simp [draw, htex, hbuf, if_neg h]
  · by_cases h : ((gl.drawingBufferWidth : ℚ) / (image.width : ℚ) >
        (gl.drawingBufferHeight : ℚ) / (image.height : ℚ))
    · simp [draw, htex, hbuf, if_pos h]
    · simp [draw, htex, hbuf, if_neg h]

/-- Witness for C1 at the specification's scenario: a 4×2 image in an 8×8
viewport gets `uTexScale = (1, 2)` and `uTexCenter = (0.5, 0.5)`. -/
theorem draw_aspect_fit_uniforms_witness :
    ¬ (((GLState.fresh 8 8).drawingBufferWidth : ℚ) / (img442.width : ℚ) >
        ((GLState.fresh 8 8).drawingBufferHeight : ℚ) / (img442.height : ℚ)) ∧
    GLCall.uniform2f UniformName.uTexScale 1 2
      ∈ (draw (GLState.fresh 8 8) ctx442).1.calls ∧
    GLCall.uniform2f UniformName.uTexCenter (1/2) (1/2)
      ∈ (draw (GLState.fresh 8 8) ctx442).1.calls := by
  have hlt : ¬ (((GLState.fresh 8 8).drawingBufferWidth : ℚ) / (img442.width : ℚ) >
      ((GLState.fresh 8 8).drawingBufferHeight : ℚ) / (img442.height : ℚ)) := by
    norm_num [GLState.fresh, img442]
  have h2 := (draw_aspect_fit_uniforms (GLState.fresh 8 8) ctx442 0 img442 rfl rfl).2.1 hlt
  have h3 := (draw_aspect_fit_uniforms (GLState.fresh 8 8) ctx442 0 img442 rfl rfl).2.2
  refine ⟨hlt, ?_, h3⟩
  have : (((GLState.fresh 8 8).drawingBufferHeight : ℚ) / (img442.height : ℚ)) /
      (((GLState.fresh 8 8).drawingBufferWidth : ℚ) / (img442.width : ℚ)) = 2 := by
    norm_num [GLState.fresh, img442]
  rwa [this] at h2

theorem uploadsOf_append (a b : List GLCall) :
    uploadsOf (a ++ b) = uploadsOf a ++ uploadsOf b :=
  List.filterMap_append a b _

theorem uploadDataOf_append (a b : List GLCall) :
    uploadDataOf (a ++ b) = uploadDataOf a ++ uploadDataOf b :=
  List.filterMap_append a b _

theorem draw_none_eq (gl : GLState) (ctx : DrawContext)
    (h : ctx.imageTexture = none) :
    draw gl ctx = ({ gl with calls := gl.calls ++
      [GLCall.viewport 0 0 gl.drawingBufferWidth gl.drawingBufferHeight,
        GLCall.clearColor 0 0 0 1, GLCall.clear,
        GLCall.useProgram ProgName.default, GLCall.bindBuffer,
        GLCall.vertexAttribPointer AttribName.aVertexPosition 2 16 0] }, ctx) := by
  cases hb : ctx.imageBuffer <;> simp [draw, h, hb]

theorem draw_countP_of_none (gl : GLState) (ctx : DrawContext)
    (h : ctx.imageTexture = none) :
    (draw gl ctx).1.calls.countP isDrawPrimitive
      = gl.calls.countP isDrawPrimitive := by
  rw [draw_none_eq gl ctx h]
  have h0 : List.countP isDrawPrimitive
      [GLCall.viewport 0 0 gl.drawingBufferWidth gl.drawingBufferHeight,
        GLCall.clearColor 0 0 0 1, GLCall.clear,
        GLCall.useProgram ProgName.default, GLCall.bindBuffer,
        GLCall.vertexAttribPointer AttribName.aVertexPosition 2 16 0] = 0 := rfl
  simp [List.countP_append, h0]

/-- C8: a `draw()` call in a state with no loaded texture is no-op-safe: it
clears the canvas to opaque black `(0, 0, 0, 1)`, issues no draw-primitive
call, and returns with the context state (and the engine's texture and log
state) unchanged.  The embedded `draw` is total, so the call raises nothing. -/
theorem draw_no_texture_noop (gl : GLState) (ctx : DrawContext)
    (h : ctx.imageTexture = none) :
    (draw gl ctx).1.calls = gl.calls ++
      [GLCall.viewport 0 0 gl.drawingBufferWidth gl.drawingBufferHeight,
        GLCall.clearColor 0 0 0 1, GLCall.clear,
        GLCall.useProgram ProgName.default, GLCall.bindBuffer,
        GLCall.vertexAttribPointer AttribName.aVertexPosition 2 16 0] ∧
    (draw gl ctx).1.calls.countP isDrawPrimitive
      = gl.calls.countP isDrawPrimitive ∧
    (draw gl ctx).1.liveTextures = gl.liveTextures ∧
    (draw gl ctx).1.errorLog = gl.errorLog ∧
    (draw gl ctx).2 = ctx := by
  refine ⟨?_, draw_countP_of_none gl ctx h, ?_, ?_, ?_⟩ <;>
    rw [draw_none_eq gl ctx h]

/-- Witness for C8 on a fresh 8×8 context that never loaded an image. -/
theorem draw_no_texture_noop_witness :
    (draw (GLState.fresh 8 8) DrawContext.construct).1.calls
        = (GLState.fresh 8 8).calls ++
      [GLCall.viewport 0 0 (GLState.fresh 8 8).drawingBufferWidth
          (GLState.fresh 8 8).drawingBufferHeight,
        GLCall.clearColor 0 0 0 1, GLCall.clear,
        GLCall.useProgram ProgName.default, GLCall.bindBuffer,
        GLCall.vertexAttribPointer AttribName.aVertexPosition 2 16 0] ∧
    (draw (GLState.fresh 8 8) DrawContext.construct).1.calls.countP isDrawPrimitive
      = (GLState.fresh 8 8).calls.countP isDrawPrimitive ∧
    (draw (GLState.fresh 8 8) DrawContext.construct).1.liveTextures
      = (GLState.fresh 8 8).liveTextures ∧
    (draw (GLState.fresh 8 8) DrawContext.construct).1.errorLog
      = (GLState.fresh 8 8).errorLog ∧
    (draw (GLState.fresh 8 8) DrawContext.construct).2 = DrawContext.construct :=
  draw_no_texture_noop (GLState.fresh 8 8) DrawContext.construct rfl

theorem initTextureForImage_invalid_size (gl : GLState) (image : ImageBuffer)
    (h : image.pixels.length ≠ image.width * image.height * image.channels) :
    (initTextureForImage gl image).2 = none ∧
    (initTextureForImage gl image).1.errorLog = gl.errorLog ++
      [LogEntry.invalidPixelCount image.pixels.length image.width
        image.height image.channels] ∧
    (initTextureForImage gl image).1.calls = gl.calls ++
      [GLCall.createTexture gl.nextTextureId,
        GLCall.bindTexture (some gl.nextTextureId)] := by
  refine ⟨?_, ?_, ?_⟩ <;> simp [initTextureForImage, h]

/-- C4: on a pixel-count mismatch, `loadImage` logs the actual buffer length
together with the width, height and channel count that determine the
expected length, yields a null texture result, issues no texture upload, and
the failure is contained: a subsequent `draw` issues no draw-primitive call
(it renders nothing).  The embedded `loadImage` is total, so nothing is
raised. -/
theorem loadImage_invalid_size_contained (gl : GLState) (ctx : DrawContext)
    (image : ImageBuffer)
    (h : image.pixels.length ≠ image.width * image.height * image.channels) :
    (loadImage gl ctx image).2.imageTexture = none ∧
    LogEntry.invalidPixelCount image.pixels.length image.width image.height
        image.channels ∈ (loadImage gl ctx image).1.errorLog ∧
    uploadsOf (loadImage gl ctx image).1.calls = uploadsOf gl.calls ∧
    (draw (loadImage gl ctx image).1 (loadImage gl ctx image).2).1.calls.countP
        isDrawPrimitive
      = (loadImage gl ctx image).1.calls.countP isDrawPrimitive := by
  have hnone : (loadImage gl ctx image).2.imageTexture = none := by
    cases ht : ctx.imageTexture <;>
      simp [loadImage, ht, (initTextureForImage_invalid_size _ image h).1]
  refine ⟨hnone, ?_, ?_, draw_countP_of_none _ _ hnone⟩
  · cases ht : ctx.imageTexture <;>
      simp [loadImage, ht, (initTextureForImage_invalid_size _ image h).2.1]
  · cases ht : ctx.imageTexture <;>
      simp [loadImage, ht, (initTextureForImage_invalid_size _ image h).2.2,
        uploadsOf_append, uploadsOf]

/-- Witness for C4: loading a length-0 buffer declared as 1×1×4 into a
fresh context. -/
theorem loadImage_invalid_size_contained_witness :
    (loadImage (GLState.fresh 8 8) DrawContext.construct badImg114).2.imageTexture
        = none ∧
    LogEntry.invalidPixelCount badImg114.pixels.length badImg114.width
        badImg114.height badImg114.channels
      ∈ (loadImage (GLState.fresh 8 8) DrawContext.construct badImg114).1.errorLog ∧
    uploadsOf (loadImage (GLState.fresh 8 8) DrawContext.construct badImg114).1.calls
      = uploadsOf (GLState.fresh 8 8).calls ∧
    (draw (loadImage (GLState.fresh 8 8) DrawContext.construct badImg114).1
        (loadImage (GLState.fresh 8 8) DrawContext.construct badImg114).2).1.calls.countP
        isDrawPrimitive
      = (loadImage (GLState.fresh 8 8) DrawContext.construct
          badImg114).1.calls.countP isDrawPrimitive :=
  loadImage_invalid_size_contained (GLState.fresh 8 8) DrawContext.construct
    badImg114 (by decide)

/-- C5: `loadImage` dispatches on the channel count.  For a size-consistent
input it issues exactly one texture upload with the channel-appropriate
floating-point internal format (1 → `R32F`, 3 → `RGB32F`, 4 → `RGBA32F`);
for any other channel count it rejects without raising (the embedding is
total), logs the unsupported count, issues no upload and produces no
texture. -/
theorem loadImage_channel_dispatch (gl : GLState) (ctx : DrawContext)
    (image : ImageBuffer)
    (hlen : image.pixels.length = image.width * image.height * image.channels) :
    (image.channels = 1 →
      uploadsOf (loadImage gl ctx image).1.calls
        = uploadsOf gl.calls ++ [TexFormat.R32F]) ∧
    (image.channels = 3 →
      uploadsOf (loadImage gl ctx image).1.calls
        = uploadsOf gl.calls ++ [TexFormat.RGB32F]) ∧
    (image.channels = 4 →
      uploadsOf (loadImage gl ctx image).1.calls
        = uploadsOf gl.calls ++ [TexFormat.RGBA32F]) ∧
    (image.channels ≠ 1 → image.channels ≠ 3 → image.channels ≠ 4 →
      uploadsOf (loadImage gl ctx image).1.calls = uploadsOf gl.calls ∧
      LogEntry.unsupportedChannels image.channels
        ∈ (loadImage gl ctx image).1.errorLog ∧
      (loadImage gl ctx image).2.imageTexture = none) := by
  refine ⟨fun hc => ?_, fun hc => ?_, fun hc => ?_, fun h1 h3 h4 => ?_⟩
  · have hfmt : formatForChannels image.channels
        = some (TexFormat.R32F, PixFormat.RED) := by
      simp [formatForChannels, hc]
    cases ht : ctx.imageTexture <;>
      simp [loadImage, ht, initTextureForImage, hlen, hfmt, uploadsOf_append,
        uploadsOf]
  · have hfmt : formatForChannels image.channels
        = some (TexFormat.RGB32F, PixFormat.RGB) := by
      simp [formatForChannels, hc]
    cases ht : ctx.imageTexture <;>
      simp [loadImage, ht, initTextureForImage, hlen, hfmt, uploadsOf_append,
        uploadsOf]
  · have hfmt : formatForChannels image.channels
        = some (TexFormat.RGBA32F, PixFormat.RGBA) := by
      simp [formatForChannels, hc]
    cases ht : ctx.imageTexture <;>
      simp [loadImage, ht, initTextureForImage, hlen, hfmt, uploadsOf_append,
        uploadsOf]
  · have hfmt : formatForChannels image.channels = none := by
      simp [formatForChannels, h1, h3, h4]
    refine ⟨?_, ?_, ?_⟩ <;>
      cases ht : ctx.imageTexture <;>
        simp [loadImage, ht, initTextureForImage, hlen, hfmt, uploadsOf_append,
          uploadsOf]

/-- Witness for C5: a valid 4-channel load issues exactly one `RGBA32F`
upload, and a 2-channel load of consistent size is rejected with a log
entry and no texture. -/
theorem loadImage_channel_dispatch_witness :
    (uploadsOf (loadImage (GLState.fresh 8 8) DrawContext.construct img442).1.calls
      = uploadsOf (GLState.fresh 8 8).calls ++ [TexFormat.RGBA32F]) ∧
    (uploadsOf (loadImage (GLState.fresh 8 8) DrawContext.construct
          { pixels := [1, 2], width := 1, height := 1, channels := 2 }).1.calls
        = uploadsOf (GLState.fresh 8 8).calls ∧
      LogEntry.unsupportedChannels
          ({ pixels := [1, 2], width := 1, height := 1,
             channels := 2 } : ImageBuffer).channels
        ∈ (loadImage (GLState.fresh 8 8) DrawContext.construct
            { pixels := [1, 2], width := 1, height := 1, channels := 2 }).1.errorLog ∧
      (loadImage (GLState.fresh 8 8) DrawContext.construct
          { pixels := [1, 2], width := 1, height := 1, channels := 2 }).2.imageTexture
        = none) :=
  ⟨(loadImage_channel_dispatch (GLState.fresh 8 8) DrawContext.construct img442
      (by decide)).2.2.1 rfl,
    (loadImage_channel_dispatch (GLState.fresh 8 8) DrawContext.construct
      { pixels := [1, 2], width := 1, height := 1, channels := 2 }
      (by decide)).2.2.2 (by decide) (by decide) (by decide)⟩

theorem formatForChannels_of_valid (c : Nat) (h : c = 1 ∨ c = 3 ∨ c = 4) :
    ∃ p, formatForChannels c = some p := by
  rcases h with h | h | h <;> subst h <;> exact ⟨_, rfl⟩

theorem loadImage_valid_live (gl : GLState) (ctx : DrawContext)
    (image : ImageBuffer) (h : validImage image) :
    (loadImage gl ctx image).2.imageTexture = some gl.nextTextureId ∧
    (loadImage gl ctx image).1.liveTextures =
      (match ctx.imageTexture with
        | some t => gl.liveTextures.erase t
        | none => gl.liveTextures) ++ [gl.nextTextureId] := by
  obtain ⟨hlen, hch⟩ := h
  obtain ⟨⟨fIn, fPx⟩, hfmt⟩ := formatForChannels_of_valid _ hch
  cases ht : ctx.imageTexture <;>
    exact ⟨by simp [loadImage, ht, initTextureForImage, hlen, hfmt],
      by simp [loadImage, ht, initTextureForImage, hlen, hfmt]⟩

theorem loadSeq_live_aux (images : List ImageBuffer) :
    ∀ gl : GLState, ∀ ctx : DrawContext,
      (∀ i ∈ images, validImage i) →
      (∃ t, gl.liveTextures = [t] ∧ ctx.imageTexture = some t) →
      ∃ t, (loadSeq gl ctx images).1.liveTextures = [t] ∧
        (loadSeq gl ctx images).2.imageTexture = some t := by
  induction images with
  | nil =>
      intro gl ctx _ hinv
      simpa [loadSeq] using hinv
  | cons i rest ih =>
      intro gl ctx hval hinv
      obtain ⟨t, hl, ht⟩ := hinv
      have hv : validImage i := hval i (by simp)
      have hstep := loadImage_valid_live gl ctx i hv
      simp only [loadSeq]
      apply ih
      · intro j hj
        exact hval j (by simp [hj])
      · refine ⟨gl.nextTextureId, ?_, hstep.1⟩
        rw [hstep.2, ht]
        simp [hl, List.erase_cons_head]

/-- Amendment of C2: over every nonempty sequence of successful `loadImage`
calls (every image valid) on one freshly constructed context, exactly one
texture object is resident afterwards, and it is the current one.  (The
failure paths of `initTextureForImage` create a texture object before
validation and never delete it, so sequences containing failed loads can
leave more resident objects; see the counterexample.) -/
theorem loadSeq_single_resident (w h : Nat) (images : List ImageBuffer)
    (hne : images ≠ []) (hval : ∀ i ∈ images, validImage i) :
    ∃ t, (loadSeq (GLState.fresh w h) DrawContext.construct images).1.liveTextures
        = [t] ∧
      (loadSeq (GLState.fresh w h) DrawContext.construct images).2.imageTexture
        = some t ∧
      (loadSeq (GLState.fresh w h) DrawContext.construct
          images).1.liveTextures.length = 1 := by
  cases images with
  | nil => exact absurd rfl hne
  | cons i rest =>
      have hv : validImage i := hval i (by simp)
      have hstep := loadImage_valid_live (GLState.fresh w h)
        DrawContext.construct i hv
      have haux := loadSeq_live_aux rest
        (loadImage (GLState.fresh w h) DrawContext.construct i).1
        (loadImage (GLState.fresh w h) DrawContext.construct i).2
        (fun j hj => hval j (by simp [hj]))
        ⟨(GLState.fresh w h).nextTextureId,
          by rw [hstep.2]; simp [GLState.fresh, DrawContext.construct],
          hstep.1⟩
      obtain ⟨t, h1, h2⟩ := haux
      refine ⟨t, ?_, ?_, ?_⟩ <;> simp only [loadSeq] <;>
        simp [h1, h2]

/-- Counterexample for C2 as stated: two failed `loadImage` calls on a fresh
context leave two resident (created, never deleted) texture objects and no
current texture — the resident count after 2 loads is 2, not 1. -/
theorem loadSeq_resident_count_cex :
    (loadSeq (GLState.fresh 8 8) DrawContext.construct
        [badImg114, badImg114]).1.liveTextures.length = 2 ∧
    (loadSeq (GLState.fresh 8 8) DrawContext.construct
        [badImg114, badImg114]).2.imageTexture = none := by
  refine ⟨rfl, rfl⟩

/-- Witness for the amended C2 on the one-element sequence `[img111]`. -/
theorem loadSeq_single_resident_witness :
    ([img111] : List ImageBuffer) ≠ [] ∧
    ∃ t, (loadSeq (GLState.fresh 8 8) DrawContext.construct
        [img111]).1.liveTextures = [t] ∧
      (loadSeq (GLState.fresh 8 8) DrawContext.construct
          [img111]).2.imageTexture = some t ∧
      (loadSeq (GLState.fresh 8 8) DrawContext.construct
          [img111]).1.liveTextures.length = 1 :=
  ⟨by simp,
    loadSeq_single_resident 8 8 [img111] (by simp)
      (by intro i hi; rw [List.mem_singleton] at hi; subst hi; decide)⟩

/-- Counterexample for C3 as stated: after a successful load of `img111`
(texture 0), a failed load does not leave the texture state unchanged — the
prior texture is deleted and the context ends with no texture at all. -/
theorem loadImage_failure_alters_prior_cex :
    (loadSeq (GLState.fresh 8 8) DrawContext.construct
        [img111]).2.imageTexture = some 0 ∧
    (loadSeq (GLState.fresh 8 8) DrawContext.construct
        [img111, badImg114]).2.imageTexture = none ∧
    GLCall.deleteTexture 0 ∈ (loadSeq (GLState.fresh 8 8) DrawContext.construct
        [img111, badImg114]).1.calls := by
  refine ⟨rfl, rfl, by decide⟩

/-- Amendment of C3: a `loadImage` call with an inconsistent pixel count
produces no texture, but it does alter prior state: any previously held
texture is deleted first and the stored image buffer is replaced, so the
context afterwards holds no texture (and `draw` renders nothing) instead of
the previously loaded image. -/
theorem loadImage_invalid_drops_prior (gl : GLState) (ctx : DrawContext)
    (image : ImageBuffer)
    (h : image.pixels.length ≠ image.width * image.height * image.channels) :
    (loadImage gl ctx image).2.imageTexture = none ∧
    (loadImage gl ctx image).2.imageBuffer = some image ∧
    ∀ t, ctx.imageTexture = some t →
      GLCall.deleteTexture t ∈ (loadImage gl ctx image).1.calls := by
  refine ⟨?_, ?_, ?_⟩
  · cases ht : ctx.imageTexture <;>
      simp [loadImage, ht, (initTextureForImage_invalid_size _ image h).1]
  · cases ht : ctx.imageTexture <;> simp [loadImage, ht]
  · intro t ht
    simp [loadImage, ht, (initTextureForImage_invalid_size _ image h).2.2]

/-- Witness for the amended C3: a failed load on a context holding
texture 0 deletes that texture and ends with none. -/
theorem loadImage_invalid_drops_prior_witness :
    (loadImage (GLState.fresh 8 8) ctx442 badImg114).2.imageTexture = none ∧
    (loadImage (GLState.fresh 8 8) ctx442 badImg114).2.imageBuffer
      = some badImg114 ∧
    ∀ t, ctx442.imageTexture = some t →
      GLCall.deleteTexture t
        ∈ (loadImage (GLState.fresh 8 8) ctx442 badImg114).1.calls :=
  loadImage_invalid_drops_prior (GLState.fresh 8 8) ctx442 badImg114 (by decide)

theorem log2floor_spec :
    ∀ fuel n : Nat, 1 ≤ n → n < 2 ^ (fuel + 1) →
      2 ^ log2floor fuel n ≤ n ∧ n < 2 ^ (log2floor fuel n + 1) := by
  intro fuel
  induction fuel with
  | zero =>
      intro n h1 h2
      simp only [log2floor]
      exact ⟨by simpa using h1, h2⟩
  | succ fuel ih =>
      intro n h1 h2
      simp only [log2floor]
      by_cases hn : n < 2
      · rw [if_pos hn]
        exact ⟨by simpa using h1, by simpa using hn⟩
      · rw [if_neg hn]
        push_neg at hn
        have h1' : 1 ≤ n / 2 := (Nat.one_le_div_iff (by norm_num)).mpr hn
        have h2' : n / 2 < 2 ^ (fuel + 1) := by
          rw [Nat.div_lt_iff_lt_mul (by norm_num : 0 < 2)]
          calc n < 2 ^ (fuel + 1 + 1) := h2
          _ = 2 ^ (fuel + 1) * 2 := by ring
        obtain ⟨ha, hb⟩ := ih (n / 2) h1' h2'
        constructor
        · calc 2 ^ (log2floor fuel (n / 2) + 1)
              = 2 ^ log2floor fuel (n / 2) * 2 := by ring
          _ ≤ n / 2 * 2 := Nat.mul_le_mul_right 2 ha
          _ ≤ n := Nat.div_mul_le_self n 2
        · calc n < 2 ^ (log2floor fuel (n / 2) + 1) * 2 :=
              (Nat.div_lt_iff_lt_mul (by norm_num : 0 < 2)).mp hb
          _ = 2 ^ (log2floor fuel (n / 2) + 1 + 1) := by ring

theorem log2floor_self_spec (n : Nat) (h1 : 1 ≤ n) :
    2 ^ log2floor n n ≤ n ∧ n < 2 ^ (log2floor n n + 1) :=
  log2floor_spec n n h1
    (lt_trans (Nat.lt_two_pow n)
      (Nat.pow_lt_pow_right (by norm_num) (Nat.lt_succ_self n)))

theorem natRoundF32_of_lt (n : Nat) (h : n < 2 ^ 24) : natRoundF32 n = n := by
  unfold natRoundF32
  rw [if_pos h]

theorem natRoundF32_mul_pow (m e : Nat) (hm : m < 2 ^ 24) :
    natRoundF32 (m * 2 ^ e) = m * 2 ^ e := by
  by_cases hsmall : m * 2 ^ e < 2 ^ 24
  · exact natRoundF32_of_lt _ hsmall
  · push_neg at hsmall
    have hm1 : 1 ≤ m := by
      rcases Nat.eq_zero_or_pos m with h0 | h0
      · subst h0
        simp at hsmall
      · exact h0
    have hpos : 1 ≤ m * 2 ^ e :=
      Nat.mul_pos hm1 (pow_pos (by norm_num) e)
    set E := log2floor (m * 2 ^ e) (m * 2 ^ e) with hE
    obtain ⟨hlo, hhi⟩ := log2floor_self_spec (m * 2 ^ e) hpos
    have hE24 : 24 ≤ E := by
      by_contra hc
      push_neg at hc
      have hlt : m * 2 ^ e < 2 ^ 24 :=
        lt_of_lt_of_le hhi (Nat.pow_le_pow_right (by norm_num) (by omega))
      exact absurd hsmall (Nat.not_le.mpr hlt)
    have hge : E - 23 ≤ e := by
      by_contra hc
      push_neg at hc
      have h1 : m * 2 ^ e < 2 ^ (24 + e) := by
        calc m * 2 ^ e < 2 ^ 24 * 2 ^ e :=
            mul_lt_mul_of_pos_right hm (pow_pos (by norm_num) e)
        _ = 2 ^ (24 + e) := (pow_add 2 24 e).symm
      have h2 : 2 ^ (24 + e) ≤ 2 ^ E :=
        Nat.pow_le_pow_right (by norm_num) (by omega)
      exact absurd hlo (Nat.not_le.mpr (lt_of_lt_of_le h1 h2))
    have hdvd : 2 ^ (E - 23) ∣ m * 2 ^ e := (pow_dvd_pow 2 hge).mul_left m
    have hmod : m * 2 ^ e % 2 ^ (E - 23) = 0 := Nat.mod_eq_zero_of_dvd hdvd
    have hhalf : (0 : ℕ) ≠ 2 ^ (E - 23 - 1) :=
      (pow_pos (show (0 : ℕ) < 2 by norm_num) (E - 23 - 1)).ne
    have hcond : ¬ (2 ^ (E - 23 - 1) < 0 ∨
        (0 = 2 ^ (E - 23 - 1) ∧ m * 2 ^ e / 2 ^ (E - 23) % 2 = 1)) := by
      rintro (hlt0 | ⟨heq0, _⟩)
      · exact Nat.not_lt_zero _ hlt0
      · exact hhalf heq0
    simp only [natRoundF32, ← hE]
    rw [if_neg (Nat.not_lt.mpr hsmall), hmod, if_neg hcond]
    exact Nat.div_mul_cancel hdvd

theorem natRoundF32_of_rep (n : Nat) (m e : ℤ) (hm : m.natAbs < 2 ^ 24)
    (hx : (n : ℚ) = (m : ℚ) * (2 : ℚ) ^ e) : natRoundF32 n = n := by
  have hm0 : 0 ≤ m := by
    by_contra hc
    push_neg at hc
    have h2 : (0 : ℚ) < (2 : ℚ) ^ e := by positivity
    have hneg : (m : ℚ) * (2 : ℚ) ^ e < 0 :=
      mul_neg_of_neg_of_pos (by exact_mod_cast hc) h2
    rw [← hx] at hneg
    exact absurd hneg (not_lt.mpr (Nat.cast_nonneg n))
  rcases le_or_lt 0 e with he | he
  · lift e to ℕ using he
    rw [zpow_natCast] at hx
    lift m to ℕ using hm0
    have hn : n = m * 2 ^ e := by exact_mod_cast hx
    rw [hn]
    exact natRoundF32_mul_pow m e (by simpa using hm)
  · have h2le : (2 : ℚ) ^ e ≤ 1 :=
      zpow_le_one_of_nonpos₀ (by norm_num) (le_of_lt he)
    have hle : (n : ℚ) ≤ (m : ℚ) := by
      rw [hx]
      calc (m : ℚ) * (2 : ℚ) ^ e ≤ (m : ℚ) * 1 :=
          mul_le_mul_of_nonneg_left h2le (by exact_mod_cast hm0)
      _ = (m : ℚ) := mul_one _
    have hmabs : (m : ℚ) = ((m.natAbs : ℕ) : ℚ) := by
      rw [Int.cast_natAbs]
      exact_mod_cast (abs_of_nonneg hm0).symm
    have hnle : n ≤ m.natAbs := by exact_mod_cast hle.trans_eq hmabs
    exact natRoundF32_of_lt n (lt_of_le_of_lt hnle hm)

theorem roundF32_eq_of_repF32 (x : ℚ) (h : repF32 x) : roundF32 x = x := by
  obtain ⟨m, e, hm, _, _, hx⟩ := h
  unfold roundF32
  by_cases hcase : 0 ≤ x.num ∧ x.den = 1
  · rw [if_pos hcase]
    obtain ⟨hnum, hden⟩ := hcase
    have hxen : ((x.num.toNat : ℕ) : ℚ) = x := by
      calc ((x.num.toNat : ℕ) : ℚ) = ((x.num : ℤ) : ℚ) := by
            exact_mod_cast Int.toNat_of_nonneg hnum
      _ = x := (Rat.den_eq_one_iff x).mp hden
    rw [natRoundF32_of_rep x.num.toNat m e hm (by rw [hxen, hx]), hxen]
  · rw [if_neg hcase]

theorem floatConvert_eq_of_repF32 :
    ∀ pixels : List ℚ, (∀ v ∈ pixels, repF32 v) →
      floatConvert pixels = pixels := by
  intro pixels
  induction pixels with
  | nil => intro _; rfl
  | cons a l ih =>
      intro h
      have hl := ih (fun v hv => h v (by simp [hv]))
      simp only [floatConvert, List.map_cons] at hl ⊢
      rw [roundF32_eq_of_repF32 a (h a (by simp)), hl]

theorem repF32_of_le_two_pow (v : ℚ) (hden : v.den = 1) (h0 : 0 ≤ v.num)
    (hle : v.num ≤ 2 ^ 24) : repF32 v := by
  rcases lt_or_eq_of_le hle with hlt | heq
  · exact ⟨v.num, 0, by omega, by norm_num, by norm_num,
      by rw [zpow_zero, mul_one, (Rat.den_eq_one_iff v).mp hden]⟩
  · exact ⟨2 ^ 23, 1, by norm_num, by norm_num, by norm_num, by
      rw [← (Rat.den_eq_one_iff v).mp hden, heq]
      norm_num⟩

/-- Counterexample for C6 as stated: `16777217 = 2^24 + 1` fits a 32-bit
unsigned pixel but is not binary32-representable, so the buffer uploaded for
it holds `16777216`, not the input value — the copy is not numerically
unchanged. -/
theorem floatConvert_rounds_cex :
    uploadDataOf (loadImage (GLState.fresh 8 8) DrawContext.construct
        { pixels := [16777217], width := 1, height := 1,
          channels := 1 }).1.calls
      = [[(16777216 : ℚ)]] ∧
    (16777217 : Nat) < 2 ^ 32 ∧
    ([[(16777216 : ℚ)]] : List (List ℚ)) ≠ [[(16777217 : ℚ)]] := by
  refine ⟨rfl, by decide, by decide⟩

/-- Amendment of C6: for every accepted input buffer the uploaded buffer is
the element-wise image of the input under the binary32 conversion
(`floatConvert`), with no normalization applied; every sample that is a
finite binary32 value (`repF32`) — in particular all 8- and 16-bit samples,
all integer samples up to `2^24`, and every finite `Float32Array` sample —
is copied numerically unchanged.  32-bit unsigned samples above `2^24` are
not all preserved: see the counterexample, where 16777217 uploads as
16777216. -/
theorem loadImage_upload_verbatim (gl : GLState) (ctx : DrawContext)
    (image : ImageBuffer) (hval : validImage image) :
    uploadDataOf (loadImage gl ctx image).1.calls
      = uploadDataOf gl.calls ++ [floatConvert image.pixels] ∧
    ((∀ v ∈ image.pixels, repF32 v) →
      uploadDataOf (loadImage gl ctx image).1.calls
        = uploadDataOf gl.calls ++ [image.pixels]) := by
  obtain ⟨hlen, hch⟩ := hval
  obtain ⟨⟨fIn, fPx⟩, hfmt⟩ := formatForChannels_of_valid _ hch
  have hgen : uploadDataOf (loadImage gl ctx image).1.calls
      = uploadDataOf gl.calls ++ [floatConvert image.pixels] := by
    cases ht : ctx.imageTexture <;>
      simp [loadImage, ht, initTextureForImage, hlen, hfmt,
        uploadDataOf_append, uploadDataOf]
  exact ⟨hgen, fun hrep => by
    rw [hgen, floatConvert_eq_of_repF32 image.pixels hrep]⟩

/-- Witness for the amended C6 on the one-sample image `img111`: the sample
7 is binary32-representable and uploads unchanged. -/
theorem loadImage_upload_verbatim_witness :
    uploadDataOf (loadImage (GLState.fresh 8 8) DrawContext.construct
        img111).1.calls
      = uploadDataOf (GLState.fresh 8 8).calls ++ [img111.pixels] :=
  (loadImage_upload_verbatim (GLState.fresh 8 8) DrawContext.construct img111
    (by decide)).2 (by
      intro v hv
      have hv7 : v = (7 : ℚ) := by
        simpa [img111] using hv
      subst hv7
      exact ⟨7, 0, by norm_num, by norm_num, by norm_num, by norm_num⟩)

/-- C7: the default fragment shader remaps the interpolated texture
coordinate through `((coord − center) × scale) + center`; if either axis of
the remapped coordinate falls outside `[0, 1]` the fragment is fully
transparent (alpha 0), otherwise the output is the sampled texel's RGB
divided by 255 with alpha fixed to 1. -/
theorem defaultFrag_remap_letterbox (env : FragEnv) (s t : ℚ) :
    (((s - env.uTexCenter.x) * env.uTexScale.x + env.uTexCenter.x < 0 ∨
      (s - env.uTexCenter.x) * env.uTexScale.x + env.uTexCenter.x > 1 ∨
      (t - env.uTexCenter.y) * env.uTexScale.y + env.uTexCenter.y < 0 ∨
      (t - env.uTexCenter.y) * env.uTexScale.y + env.uTexCenter.y > 1) →
      fragMain FragShader.defaultFrag env s t = ⟨0, 0, 0, 0⟩) ∧
    (¬ ((s - env.uTexCenter.x) * env.uTexScale.x + env.uTexCenter.x < 0 ∨
      (s - env.uTexCenter.x) * env.uTexScale.x + env.uTexCenter.x > 1 ∨
      (t - env.uTexCenter.y) * env.uTexScale.y + env.uTexCenter.y < 0 ∨
      (t - env.uTexCenter.y) * env.uTexScale.y + env.uTexCenter.y > 1) →
      fragMain FragShader.defaultFrag env s t =
        ⟨(env.tex ((s - env.uTexCenter.x) * env.uTexScale.x + env.uTexCenter.x)
            ((t - env.uTexCenter.y) * env.uTexScale.y + env.uTexCenter.y)).x / 255,
          (env.tex ((s - env.uTexCenter.x) * env.uTexScale.x + env.uTexCenter.x)
            ((t - env.uTexCenter.y) * env.uTexScale.y + env.uTexCenter.y)).y / 255,
          (env.tex ((s - env.uTexCenter.x) * env.uTexScale.x + env.uTexCenter.x)
            ((t - env.uTexCenter.y) * env.uTexScale.y + env.uTexCenter.y)).z / 255,
          1⟩) := by
  constructor
  · intro h
    simp only [fragMain]
    rw [if_pos h]
  · intro h
    simp only [fragMain]
    rw [if_neg h]
    simp [Vec3.divC]

/-- Witness for C7 on `envW`: the coordinate `(2, 1/2)` remaps out of range
and renders transparent; `(1/2, 1/2)` remaps in range and renders the texel
`(510, 255, 0)` as `(2, 1, 0)` with alpha 1. -/
theorem defaultFrag_remap_letterbox_witness :
    fragMain FragShader.defaultFrag envW 2 (1/2) = ⟨0, 0, 0, 0⟩ ∧
    fragMain FragShader.defaultFrag envW (1/2) (1/2) = ⟨2, 1, 0, 1⟩ := by
  constructor
  · exact (defaultFrag_remap_letterbox envW 2 (1/2)).1 (by norm_num [envW])
  · have h := (defaultFrag_remap_letterbox envW (1/2) (1/2)).2 (by norm_num [envW])
    norm_num [envW] at h
    exact h

/-- Counterexample for C9 as stated: no entry of the compiled shader program
set has box-blur semantics — the set holds only the `default` program, and
its fragment shader is not a box blur (at the all-zero texture it outputs
alpha 0 for the out-of-range coordinate `(2, 1/2)` where a box blur outputs
alpha 1). -/
theorem shader_set_lacks_blur_cex :
    (∃ p ∈ shaderProgramSources, isBoxBlurFrag (fragMain p.2.fragment))
      = False := by
  apply eq_false
  rintro ⟨p, hp, hblur⟩
  simp only [shaderProgramSources, List.mem_singleton] at hp
  subst hp
  have h := hblur envC 2 (1/2)
  norm_num [fragMain, boxBlurSpec, envC, Vec3.divC, Vec4.mk.injEq] at h

/-- Amendment of C9: the repository's blur fragment shader source does
compute each output pixel as the average of the 3×3 texel neighborhood
before the division by 255, but it is not wired into the compiled program
set: `shaderProgramSources` holds only the `default` program with the
default fragment shader, so no blur variant is selectable by program name. -/
theorem blur_shader_exists_but_unwired :
    isBoxBlurFrag (fragMain FragShader.blurFrag) ∧
    shaderProgramSources = [(ProgName.default,
      { vertex := VertShader.defaultVert,
        fragment := FragShader.defaultFrag })] ∧
    shaderProgramSources.all
      (fun p => p.2.fragment != FragShader.blurFrag) = true := by
  refine ⟨?_, rfl, rfl⟩
  intro env s t
  have hm1 : ∀ a b : ℚ, a + -1 * b = a - b := fun a b => by ring
  have h0 : ∀ a b : ℚ, a + 0 * b = a := fun a b => by ring
  have hp1 : ∀ a b : ℚ, a + 1 * b = a + b := fun a b => by ring
  simp only [fragMain, boxBlurSpec, blurOffsets, List.foldl_cons,
    List.foldl_nil, Vec3.add_def, Vec3.divC, hm1, h0, hp1, Vec4.mk.injEq]
  refine ⟨?_, ?_, ?_, trivial⟩ <;> ring

end PixelParity
